import Mathlib

/-!
Verification of `fastapi/applications.py` (the `FastAPI` application class).

The file is shallowly embedded: the constructor becomes a function from a
configuration record to an application state record, methods become functions
on that state (returning a result together with the possibly-updated state),
and Python attribute errors are made explicit with `Except`.  Truthiness of
`Optional[str]` values (`if self.openapi_url:`) is modelled by `strTruthy`.

External collaborators that are not part of the repository slice
(`get_openapi`, `get_swagger_ui_html`, `get_redoc_html`,
`get_swagger_ui_oauth2_redirect_html`) are modelled from the spec; each such
definition carries a doc comment starting with `Modelled from the spec:`.
-/

namespace FastAPIApp

/-- Handlers that can be attached to a registered route.  The four
documentation handlers correspond to the bound methods passed to
`add_route` in `FastAPI.__init__`; `user` stands for any route supplied by
the caller in the `routes` argument. -/
inductive Handler where
  | openapiH
  | docsH
  | oauth2RedirectH
  | redocH
  | user (tag : Nat)
  deriving DecidableEq, Repr

/-- A registered route, as produced by `add_route(path, handler,
include_in_schema=...)`.  The path is `Option String` because the code can
pass `self.swagger_ui_oauth2_redirect_url`, an `Optional[str]`, as the path. -/
structure Route where
  path : Option String
  handler : Handler
  includeInSchema : Bool
  deriving DecidableEq, Repr

/-- The constructor parameters of `FastAPI.__init__` (lines 42-64), with the
default values of the signature as field defaults.  Parameters that the
constructor merely forwards opaquely to the base framework
(`default_response_class`, `middleware`, `exception_handlers`, `on_startup`,
`on_shutdown`, `**extra`) are omitted: no claim depends on them. -/
structure Config where
  debug : Bool := false
  routes : List Route := []
  title : String := "FastAPI"
  description : String := ""
  version : String := "0.1.0"
  openapi_url : Option String := some "/openapi.json"
  openapi_tags : Option (List String) := none
  servers : Option (List String) := none
  docs_url : Option String := some "/docs"
  redoc_url : Option String := some "/redoc"
  swagger_ui_oauth2_redirect_url : Option String := some "/docs/oauth2-redirect"
  swagger_ui_init_oauth : Option String := none
  deriving DecidableEq, Repr

/-- The configuration obtained by calling `FastAPI()` with no arguments:
every parameter takes the default of the signature. -/
def defaultConfig : Config := {}

/-- Python truthiness of an `Optional[str]`: `None` and the empty string are
falsy, every other string is truthy. -/
def strTruthy : Option String → Bool
  | none => false
  | some s => !s.isEmpty

/-- The OpenAPI schema document. Modelled from the spec:
`fastapi.openapi.utils.get_openapi` is an external collaborator whose module
is not part of the repository slice; the spec describes its result as a
structured description of the routes that contains the configured title,
version and description verbatim. -/
structure OpenAPISchema where
  title : String
  version : String
  description : String
  routes : List Route
  tags : Option (List String)
  servers : Option (List String)
  deriving DecidableEq, Repr

/-- Modelled from the spec: the external schema generator
`fastapi.openapi.utils.get_openapi` (imported on line 16 but defined outside
the slice) builds the schema document from the title, version, description,
route list, tags and servers, embedding title, version and description
verbatim. -/
def get_openapi (title version description : String) (routes : List Route)
    (tags servers : Option (List String)) : OpenAPISchema :=
  { title := title, version := version, description := description,
    routes := routes, tags := tags, servers := servers }

/-- Rendering of an `Optional[str]` inside an HTML template: Python string
interpolation renders `None` as the text `None`. -/
def optStr : Option String → String
  | none => "None"
  | some s => s

/-- Modelled from the spec: the external template generator
`fastapi.openapi.docs.get_swagger_ui_html` returns a rendered HTML document
that embeds the given schema URL as a reference, together with the page
title and the OAuth2 settings. -/
def get_swagger_ui_html (openapi_url : Option String) (title : String)
    (oauth2_redirect_url : Option String) (init_oauth : Option String) : String :=
  "<html><head><title>" ++ title ++ "</title></head><body><script>const url = "
    ++ optStr openapi_url
    ++ "; const oauth2RedirectUrl = " ++ optStr oauth2_redirect_url
    ++ "; const initOAuth = " ++ optStr init_oauth
    ++ ";</script></body></html>"

/-- Modelled from the spec: the external template generator
`fastapi.openapi.docs.get_redoc_html` returns a rendered HTML document that
embeds the given schema URL as a reference, together with the page title. -/
def get_redoc_html (openapi_url : Option String) (title : String) : String :=
  "<html><head><title>" ++ title ++ "</title></head><body><redoc spec-url="
    ++ optStr openapi_url
    ++ "></redoc></body></html>"

/-- Modelled from the spec: the external generator
`fastapi.openapi.docs.get_swagger_ui_oauth2_redirect_html` returns a static
HTML document and takes no parameters. -/
def get_swagger_ui_oauth2_redirect_html : String :=
  "<html><body><script>window.opener.swaggerUIRedirectOauth2;</script></body></html>"

/-- The attribute state of a `FastAPI` instance after construction.
`openapi_schema` is `Option (Option OpenAPISchema)`: the outer `none` means
the attribute was never assigned (reading it raises `AttributeError`), and
`some none` would mean the attribute holds Python `None`.  `routes` is the
route list seen by `self.routes`: the user routes followed by the routes
added by `add_route` in the constructor. -/
structure AppState where
  debug : Bool
  title : String
  description : String
  version : String
  openapi_url : Option String
  openapi_tags : Option (List String)
  servers : Option (List String)
  docs_url : Option String
  redoc_url : Option String
  swagger_ui_oauth2_redirect_url : Option String
  swagger_ui_init_oauth : Option String
  routes : List Route
  openapi_schema : Option (Option OpenAPISchema)
  deriving DecidableEq, Repr

/-- The documentation routes registered by the tail of `FastAPI.__init__`
(lines 119-129), in registration order:

* `if self.openapi_url:` registers the schema route;
* `if self.docs_url:` registers the docs route AND the OAuth2-redirect
  route (the latter at path `self.swagger_ui_oauth2_redirect_url`,
  whatever that field holds);
* `if self.redoc_url:` registers the redoc route.

Every one of these calls passes `include_in_schema=False`. -/
def docRoutes (cfg : Config) : List Route :=
  (if strTruthy cfg.openapi_url then
    [{ path := cfg.openapi_url, handler := .openapiH, includeInSchema := false }]
   else [])
  ++ (if strTruthy cfg.docs_url then
    [{ path := cfg.docs_url, handler := .docsH, includeInSchema := false },
     { path := cfg.swagger_ui_oauth2_redirect_url, handler := .oauth2RedirectH,
       includeInSchema := false }]
   else [])
  ++ (if strTruthy cfg.redoc_url then
    [{ path := cfg.redoc_url, handler := .redocH, includeInSchema := false }]
   else [])

/-- `FastAPI.__init__` (lines 88-129): copies every configuration value onto
the instance, builds the route list, and registers the documentation routes.
Note that no assignment to `self.openapi_schema` occurs anywhere in the
constructor, so that attribute is left unassigned (`none`). -/
def FastAPI.init (cfg : Config) : AppState :=
  { debug := cfg.debug
    title := cfg.title
    description := cfg.description
    version := cfg.version
    openapi_url := cfg.openapi_url
    openapi_tags := cfg.openapi_tags
    servers := cfg.servers
    docs_url := cfg.docs_url
    redoc_url := cfg.redoc_url
    swagger_ui_oauth2_redirect_url := cfg.swagger_ui_oauth2_redirect_url
    swagger_ui_init_oauth := cfg.swagger_ui_init_oauth
    routes := cfg.routes ++ docRoutes cfg
    openapi_schema := none }

/-- Python errors that the embedded methods can raise. -/
inductive PyError where
  | attributeError
  deriving DecidableEq, Repr

/-- `FastAPI.openapi` (lines 131-147):

```
if not self.openapi_schema:
    self.openapi_schema = get_openapi(...)
return self.openapi_schema
```

Reading `self.openapi_schema` when the attribute was never assigned raises
`AttributeError`.  When it holds `None` (falsy), the schema is computed,
stored and returned; when it already holds a schema document the cached
document is returned unchanged (a dict produced by the schema generator is
non-empty, hence truthy). -/
def FastAPI.openapi (st : AppState) : Except PyError (OpenAPISchema × AppState) :=
  match st.openapi_schema with
  | none => .error .attributeError
  | some none =>
      let s := get_openapi st.title st.version st.description st.routes
        st.openapi_tags st.servers
      .ok (s, { st with openapi_schema := some (some s) })
  | some (some s) => .ok (s, st)

/-- `FastAPI.swagger_ui_html` (lines 149-161): forwards `self.openapi_url`,
`self.title + " - Swagger UI"`, `self.swagger_ui_oauth2_redirect_url` and
`self.swagger_ui_init_oauth` to the template generator.  The method performs
no assignment, so the state is returned unchanged. -/
def FastAPI.swagger_ui_html (st : AppState) : String × AppState :=
  (get_swagger_ui_html st.openapi_url (st.title ++ " - Swagger UI")
    st.swagger_ui_oauth2_redirect_url st.swagger_ui_init_oauth, st)

/-- `FastAPI.swagger_ui_oauth2_redirect_html` (lines 163-170): returns the
static document from the parameterless external generator; no assignment. -/
def FastAPI.swagger_ui_oauth2_redirect_html (st : AppState) : String × AppState :=
  (get_swagger_ui_oauth2_redirect_html, st)

/-- `FastAPI.redoc_html` (lines 172-181): forwards `self.openapi_url` and
`self.title + " - ReDoc"` to the template generator; no assignment. -/
def FastAPI.redoc_html (st : AppState) : String × AppState :=
  (get_redoc_html st.openapi_url (st.title ++ " - ReDoc"), st)

/-- The names bound in the module namespace of `fastapi/applications.py` by
its import statements (lines 4-32), in source order. -/
def moduleImportedNames : List String :=
  ["Any", "AsyncGenerator", "Dict", "List", "Optional", "Sequence", "Tuple",
   "Union", "routing", "run_in_threadpool", "DictIntStrAny", "SetIntStr",
   "RequestValidationError", "logger", "get_redoc_html", "get_swagger_ui_html",
   "get_swagger_ui_oauth2_redirect_html", "get_openapi", "Depends", "ASGIApp",
   "ASGIInstance", "Scope", "Starlette", "StarletteHTTPException",
   "ExceptionMiddleware", "Middleware", "BaseHTTPMiddleware", "CORSMiddleware",
   "ServerErrorMiddleware", "GZipMiddleware", "HTTPSRedirectMiddleware",
   "TrustedHostMiddleware", "Request", "HTMLResponse", "JSONResponse",
   "Response", "BaseRoute", "Match", "Receive", "StarletteScope", "Send"]

/-- The Python builtin names referenced by the annotations and default
values of the `FastAPI.__init__` signature. -/
def builtinNames : List String := ["bool", "str", "type", "Exception"]

/-- The names referenced by the annotations and default values of the
`FastAPI.__init__` signature (lines 42-64).  Without
`from __future__ import annotations`, these are evaluated when the class
body executes, i.e. at module import time. -/
def initSignatureNames : List String :=
  ["bool", "Optional", "List", "BaseRoute", "str", "Dict", "Any", "Union",
   "type", "JSONResponse", "Sequence", "Middleware", "Exception", "Callable"]

/-- Whether a name used in the class body resolves at import time: it must
be bound by one of the module imports or be a Python builtin (the class body
defines no relevant local names before `__init__`). -/
def resolvesAtImport (n : String) : Bool :=
  moduleImportedNames.contains n || builtinNames.contains n

/-- Whether importing the module succeeds: every name evaluated while the
class body executes must resolve; an unresolvable name raises `NameError`
and aborts the import. -/
def moduleImportSucceeds : Bool :=
  initSignatureNames.all resolvesAtImport

/-- A constructed application whose `openapi_schema` attribute holds Python
`None`, the state the spec intends `FastAPI.__init__` to produce. -/
def schemaReadyState : AppState :=
  { FastAPI.init defaultConfig with openapi_schema := some none }

/-- The schema document computed from `schemaReadyState`. -/
def defaultSchema : OpenAPISchema :=
  get_openapi "FastAPI" "0.1.0" "" (docRoutes defaultConfig) none none

/-- The state after the first successful schema computation on
`schemaReadyState`. -/
def schemaCachedState : AppState :=
  { schemaReadyState with openapi_schema := some (some defaultSchema) }

/-- The default configuration with the OAuth2-redirect URL field set to the
empty string. -/
def emptyOauthCfg : Config := { swagger_ui_oauth2_redirect_url := some "" }

/-- C1, counterexample: with every field at its default except the
OAuth2-redirect URL, which is the empty string, the claim says the
OAuth2-redirect route is omitted; the constructor nevertheless registers it,
because its registration is guarded by `if self.docs_url:` rather than by
its own field. -/
theorem c1_empty_oauth2_url_still_registered :
    strTruthy emptyOauthCfg.swagger_ui_oauth2_redirect_url = false ∧
    (docRoutes emptyOauthCfg).any
      (fun r => r.handler == Handler.oauth2RedirectH) = true :=
  ⟨rfl, rfl⟩

/-- C1, amended: the schema, docs and redoc routes are each registered iff
their own configuration field is non-empty, but the OAuth2-redirect route is
registered iff the DOCS URL is non-empty, regardless of the value of its own
field. -/
theorem c1_route_registration_conditions (cfg : Config) :
    ((docRoutes cfg).any (fun r => r.handler == Handler.openapiH)
      = strTruthy cfg.openapi_url) ∧
    ((docRoutes cfg).any (fun r => r.handler == Handler.docsH)
      = strTruthy cfg.docs_url) ∧
    ((docRoutes cfg).any (fun r => r.handler == Handler.oauth2RedirectH)
      = strTruthy cfg.docs_url) ∧
    ((docRoutes cfg).any (fun r => r.handler == Handler.redocH)
      = strTruthy cfg.redoc_url) := by
  unfold docRoutes
  cases h1 : strTruthy cfg.openapi_url <;> cases h2 : strTruthy cfg.docs_url <;>
    cases h3 : strTruthy cfg.redoc_url <;> simp [h1, h2, h3]

/-- C2: the constructor never assigns `self.openapi_schema`, so immediately
after construction the attribute does not exist (rather than holding `None`),
and the first call to `openapi` raises `AttributeError` at
`if not self.openapi_schema:` instead of computing the schema. -/
theorem c2_openapi_schema_never_initialized :
    (FastAPI.init defaultConfig).openapi_schema = none ∧
    FastAPI.openapi (FastAPI.init defaultConfig) = .error .attributeError :=
  ⟨rfl, rfl⟩

/-- C3: once a call to the schema accessor has returned a schema document,
every later call returns the identical document with the state unchanged,
and none of the HTML accessors modifies any field of the state. -/
theorem c3_cached_schema_stable (st st' : AppState) (s : OpenAPISchema)
    (h : FastAPI.openapi st = .ok (s, st')) :
    FastAPI.openapi st' = .ok (s, st') ∧
    (FastAPI.swagger_ui_html st').2 = st' ∧
    (FastAPI.swagger_ui_oauth2_redirect_html st').2 = st' ∧
    (FastAPI.redoc_html st').2 = st' := by
  have hkey : st'.openapi_schema = some (some s) := by
    unfold FastAPI.openapi at h
    cases hm : st.openapi_schema with
    | none => rw [hm] at h; exact absurd h (by simp)
    | some c =>
      cases c with
      | none =>
        rw [hm] at h
        simp only [Except.ok.injEq, Prod.mk.injEq] at h
        obtain ⟨hs, hst⟩ := h
        rw [← hst, hs]
      | some s0 =>
        rw [hm] at h
        simp only [Except.ok.injEq, Prod.mk.injEq] at h
        obtain ⟨hs, hst⟩ := h
        rw [← hst, hm, hs]
  refine ⟨?_, rfl, rfl, rfl⟩
  unfold FastAPI.openapi
  rw [hkey]

/-- C3, witness: instantiated at `schemaReadyState`. -/
theorem c3_cached_schema_stable_witness :
    FastAPI.openapi schemaCachedState = .ok (defaultSchema, schemaCachedState) ∧
    (FastAPI.swagger_ui_html schemaCachedState).2 = schemaCachedState ∧
    (FastAPI.swagger_ui_oauth2_redirect_html schemaCachedState).2
      = schemaCachedState ∧
    (FastAPI.redoc_html schemaCachedState).2 = schemaCachedState :=
  c3_cached_schema_stable schemaReadyState schemaCachedState defaultSchema rfl

/-- C4: from a state whose schema cache is initialized and empty, the schema
accessor succeeds and the returned document carries the configured title,
version and description verbatim (the constructor copies the configuration
onto the state, and `openapi` forwards those fields to the generator). -/
theorem c4_schema_fields_verbatim (st : AppState)
    (h : st.openapi_schema = some none) :
    ∃ s st', FastAPI.openapi st = .ok (s, st') ∧
      s.title = st.title ∧ s.version = st.version ∧
      s.description = st.description := by
  refine ⟨get_openapi st.title st.version st.description st.routes
    st.openapi_tags st.servers,
    { st with openapi_schema := some (some (get_openapi st.title st.version
        st.description st.routes st.openapi_tags st.servers)) },
    ?_, rfl, rfl, rfl⟩
  unfold FastAPI.openapi
  rw [h]

/-- C4, witness: instantiated at `schemaReadyState`. -/
theorem c4_schema_fields_verbatim_witness :
    ∃ s st', FastAPI.openapi schemaReadyState = .ok (s, st') ∧
      s.title = schemaReadyState.title ∧
      s.version = schemaReadyState.version ∧
      s.description = schemaReadyState.description :=
  c4_schema_fields_verbatim schemaReadyState rfl

/-- C5: when the schema URL is configured, the docs HTML returned by
`swagger_ui_html` embeds it: the rendered document decomposes around the
configured URL. -/
theorem c5_docs_html_embeds_schema_url (st : AppState) (u : String)
    (h : st.openapi_url = some u) :
    ∃ pre post, (FastAPI.swagger_ui_html st).1 = pre ++ u ++ post := by
  refine ⟨"<html><head><title>" ++ (st.title ++ " - Swagger UI")
      ++ "</title></head><body><script>const url = ",
    "; const oauth2RedirectUrl = " ++ optStr st.swagger_ui_oauth2_redirect_url
      ++ "; const initOAuth = " ++ optStr st.swagger_ui_init_oauth
      ++ ";</script></body></html>", ?_⟩
  simp only [FastAPI.swagger_ui_html, get_swagger_ui_html, h, optStr,
    String.append_assoc]

/-- C5, witness: instantiated at the default configuration, whose schema URL
is the non-empty string "/openapi.json". -/
theorem c5_docs_html_embeds_schema_url_witness :
    ∃ pre post, (FastAPI.swagger_ui_html (FastAPI.init defaultConfig)).1
      = pre ++ "/openapi.json" ++ post :=
  c5_docs_html_embeds_schema_url (FastAPI.init defaultConfig) "/openapi.json" rfl

/-- C6: the OAuth2 redirect accessor depends on no configuration: any two
application states receive the same document, and the call leaves the state
unchanged. -/
theorem c6_oauth2_redirect_static (s1 s2 : AppState) :
    (FastAPI.swagger_ui_oauth2_redirect_html s1).1
      = (FastAPI.swagger_ui_oauth2_redirect_html s2).1 ∧
    (FastAPI.swagger_ui_oauth2_redirect_html s1).2 = s1 :=
  ⟨rfl, rfl⟩

/-- C7: the docs and redoc accessors leave every field of the state
unchanged, and their outputs depend only on the schema URL, title and OAuth2
settings: two states agreeing on those fields receive identical documents. -/
theorem c7_html_accessors_pure (st st2 : AppState)
    (hu : st.openapi_url = st2.openapi_url) (ht : st.title = st2.title)
    (hr : st.swagger_ui_oauth2_redirect_url
      = st2.swagger_ui_oauth2_redirect_url)
    (hi : st.swagger_ui_init_oauth = st2.swagger_ui_init_oauth) :
    (FastAPI.swagger_ui_html st).2 = st ∧
    (FastAPI.redoc_html st).2 = st ∧
    (FastAPI.swagger_ui_html st).1 = (FastAPI.swagger_ui_html st2).1 ∧
    (FastAPI.redoc_html st).1 = (FastAPI.redoc_html st2).1 := by
  refine ⟨rfl, rfl, ?_, ?_⟩ <;>
    simp [FastAPI.swagger_ui_html, FastAPI.redoc_html, hu, ht, hr, hi]

/-- C7, witness: instantiated at the default state and the same state with a
different debug flag. -/
theorem c7_html_accessors_pure_witness :
    (FastAPI.swagger_ui_html (FastAPI.init defaultConfig)).2
      = FastAPI.init defaultConfig ∧
    (FastAPI.redoc_html (FastAPI.init defaultConfig)).2
      = FastAPI.init defaultConfig ∧
    (FastAPI.swagger_ui_html (FastAPI.init defaultConfig)).1
      = (FastAPI.swagger_ui_html
          { FastAPI.init defaultConfig with debug := true }).1 ∧
    (FastAPI.redoc_html (FastAPI.init defaultConfig)).1
      = (FastAPI.redoc_html
          { FastAPI.init defaultConfig with debug := true }).1 :=
  c7_html_accessors_pure (FastAPI.init defaultConfig)
    { FastAPI.init defaultConfig with debug := true } rfl rfl rfl rfl

/-- C8: calling the constructor without arguments leaves the four
documentation URL fields at the defaults of the signature. -/
theorem c8_default_doc_urls :
    (FastAPI.init defaultConfig).openapi_url = some "/openapi.json" ∧
    (FastAPI.init defaultConfig).docs_url = some "/docs" ∧
    (FastAPI.init defaultConfig).swagger_ui_oauth2_redirect_url
      = some "/docs/oauth2-redirect" ∧
    (FastAPI.init defaultConfig).redoc_url = some "/redoc" :=
  ⟨rfl, rfl, rfl, rfl⟩

/-- C9: the name `Callable`, referenced by the eagerly-evaluated annotations
of the `FastAPI.__init__` signature, is bound neither by the module imports
nor by a builtin, so evaluating the class body raises `NameError` and the
module import always fails. -/
theorem c9_module_import_fails :
    moduleImportSucceeds = false ∧
    initSignatureNames.contains "Callable" = true ∧
    resolvesAtImport "Callable" = false :=
  ⟨rfl, rfl, rfl⟩

/-- Boolean form of C10: every route produced by the documentation-route
registration carries the hidden flag. -/
theorem docRoutes_hidden_bool (cfg : Config) :
    (docRoutes cfg).all (fun r => !r.includeInSchema) = true := by
  unfold docRoutes
  cases h1 : strTruthy cfg.openapi_url <;> cases h2 : strTruthy cfg.docs_url <;>
    cases h3 : strTruthy cfg.redoc_url <;> simp [h1, h2, h3]

/-- C10: every documentation route registered by the constructor carries
`include_in_schema=False`. -/
theorem c10_doc_routes_hidden (cfg : Config) (r : Route)
    (hr : r ∈ docRoutes cfg) : r.includeInSchema = false := by
  have h := List.all_eq_true.mp (docRoutes_hidden_bool cfg) r hr
  simpa using h

/-- C10, witness: instantiated at the default configuration and its schema
route. -/
theorem c10_doc_routes_hidden_witness :
    Route.includeInSchema
      { path := some "/openapi.json", handler := Handler.openapiH,
        includeInSchema := false } = false :=
  c10_doc_routes_hidden defaultConfig
    { path := some "/openapi.json", handler := Handler.openapiH,
      includeInSchema := false } (by decide)

end FastAPIApp
